import Mathlib

/-!
Verification of the research orchestration engine of the
gemini-deepresearch repository, as a shallow embedding in Lean.

The definitions below are translated from the Python source:

* `core/state_manager.py` — task lifecycle (`TaskStatus`, `start_new_task`,
  `update_task_progress`, `complete_task`) and the search bookkeeping
  (`add_search_queries`, `add_search_result`).
* `core/workflow_builder.py` — the task-classification fallback
  (`_analyze_task_type`, `_get_default_task_analysis`,
  `_create_workflow_steps`).
* `core/research_engine.py` — the effort presets
  (`_adjust_workflow_by_effort`), the supplementary-search loop of
  `_execute_workflow`, the reflection-verdict computation of
  `_analyze_search_results_step`, the search step `_execute_search_step`
  and the answer step `_generate_final_answer_step`.

External effects (LLM and web-search calls, the mutable stop flag) are
passed in as explicit environments; wall-clock timestamps and debug
logging are omitted as they carry no control flow.
-/

/-- Task lifecycle status, from `state_manager.TaskStatus`. -/
inductive TaskStatus where
  | pending
  | analyzing
  | searching
  | reflecting
  | generating
  | completed
  | failed
  | cancelled
  deriving Repr, DecidableEq

/-- Terminal statuses of a task (completed, failed, cancelled); every
other status counts as active/non-terminal. -/
def TaskStatus.isTerminal : TaskStatus → Bool
  | .completed => true
  | .failed => true
  | .cancelled => true
  | _ => false

/-- One citation dictionary as the engine consumes it: fields are read
with dict-get defaults, so they are optional here. -/
structure Citation where
  title : Option String
  url : Option String
  deriving Repr, DecidableEq

/-- The result dictionary returned by `SearchAgent.search_with_grounding`.
The method catches every exception and returns `success = false` with an
error message instead of raising. -/
structure RawResult where
  success : Bool
  query : String
  content : String
  citations : List Citation
  urls : List String
  has_grounding : Bool
  duration : Nat
  error : String
  deriving Repr, DecidableEq

/-- The `SearchResult` dataclass of `state_manager.py` (the wall-clock
timestamp field is omitted). -/
structure SearchResultRec where
  query : String
  content : String
  citations : List Citation
  urls : List String
  has_grounding : Bool
  duration : Nat
  success : Bool
  error : String
  deriving Repr, DecidableEq

/-- The search-related slice of `StateManager`: the result list, the query
history, the web-research blocks and the `total_searches` statistic. -/
structure SearchState where
  search_results : List SearchResultRec
  search_history : List String
  web_research_results : List String
  total_searches : Nat
  deriving Repr, DecidableEq

/-- Fresh search state, as produced by `StateManager.__init__` or
`reset_task_state`. -/
def initialSearchState : SearchState :=
  { search_results := [], search_history := [], web_research_results := [],
    total_searches := 0 }

/-- The body of the loop in `StateManager.add_search_queries`: a query is
appended to the history only when it is non-empty and not already
present. -/
def addQueryOne (s : SearchState) (q : String) : SearchState :=
  if q ≠ "" ∧ q ∉ s.search_history then
    { s with search_history := s.search_history ++ [q] }
  else s

/-- `StateManager.add_search_queries`: folds `addQueryOne` over the given
queries in order. -/
def addSearchQueries (s : SearchState) (qs : List String) : SearchState :=
  qs.foldl addQueryOne s

/-- Conversion of a raw search-result dictionary into the stored
`SearchResult` record, as in `StateManager.add_search_result`. -/
def toSearchResultRec (q : String) (res : RawResult) : SearchResultRec :=
  { query := q, content := res.content, citations := res.citations,
    urls := res.urls, has_grounding := res.has_grounding,
    duration := res.duration, success := res.success, error := res.error }

/-- `StateManager.add_search_result`: always appends a `SearchResult`
record and bumps `total_searches`; the query joins the history only when
non-empty and new. -/
def addSearchResult (s : SearchState) (q : String) (res : RawResult) :
    SearchState :=
  let s1 : SearchState :=
    { s with search_results := s.search_results ++ [toSearchResultRec q res],
             total_searches := s.total_searches + 1 }
  if q ≠ "" ∧ q ∉ s1.search_history then
    { s1 with search_history := s1.search_history ++ [q] }
  else s1

/-- `StateManager.add_web_research_result`: appends one analysis block. -/
def addWebResearch (s : SearchState) (c : String) : SearchState :=
  { s with web_research_results := s.web_research_results ++ [c] }

/-- The two `StateManager` operations that touch the query history. -/
inductive HistoryOp where
  | addQueries (qs : List String)
  | addResult (q : String) (res : RawResult)
  deriving Repr

/-- Interpretation of one history operation on the search state. -/
def applyHistoryOp (s : SearchState) : HistoryOp → SearchState
  | .addQueries qs => addSearchQueries s qs
  | .addResult q res => addSearchResult s q res

/-- Interpretation of a sequence of history operations. -/
def applyHistoryOps (s : SearchState) (ops : List HistoryOp) : SearchState :=
  ops.foldl applyHistoryOp s

/-- Number of `add_search_result` calls in an operation sequence. -/
def countResultOps (ops : List HistoryOp) : Nat :=
  ops.countP fun op => match op with
    | .addResult _ _ => true
    | _ => false

/-- The task-lifecycle slice of `TaskProgress` in `state_manager.py`
(timing and step-count fields omitted). -/
structure TaskRec where
  task_id : String
  user_query : String
  status : TaskStatus
  deriving Repr, DecidableEq

/-- The task-lifecycle slice of `StateManager`: the current task, the
task history and the `total_tasks` statistic. -/
structure TaskSession where
  current_task : Option TaskRec
  task_history : List TaskRec
  total_tasks : Nat
  deriving Repr, DecidableEq

/-- Fresh task session, as in `StateManager.__init__`. -/
def initialTaskSession : TaskSession :=
  { current_task := none, task_history := [], total_tasks := 0 }

/-- `StateManager.start_new_task`: the current task, if any, is appended
to the history with its status untouched; a fresh pending task becomes
current; `total_tasks` is bumped and the new id returned. The method has
no rejection path. (It also resets the search state, which lives in
`SearchState` here.) -/
def startNewTask (s : TaskSession) (q tid : String) : TaskSession × String :=
  ({ current_task := some { task_id := tid, user_query := q,
                            status := .pending },
     task_history := s.task_history ++ s.current_task.toList,
     total_tasks := s.total_tasks + 1 }, tid)

/-- The status assignment of `StateManager.update_task_progress` /
`complete_task` / `fail_task`: sets the current task's status when a
current task exists. -/
def updateTaskStatus (s : TaskSession) (st : TaskStatus) : TaskSession :=
  match s.current_task with
  | some t => { s with current_task := some { t with status := st } }
  | none => s

/-- All task records held by the session: the current task plus the
archived history. -/
def sessionTasks (s : TaskSession) : List TaskRec :=
  s.current_task.toList ++ s.task_history

/-- Number of session task records whose status is non-terminal. -/
def activeCount (s : TaskSession) : Nat :=
  (sessionTasks s).countP fun t => !t.status.isTerminal

/-- The task-analysis dictionary produced by classification
(`workflow_builder.py`). -/
structure TaskAnalysis where
  task_type : String
  complexity : String
  requires_search : Bool
  requires_multiple_rounds : Bool
  estimated_steps : Nat
  estimated_time : String
  reasoning : String
  deriving Repr, DecidableEq

/-- `DynamicWorkflowBuilder._get_default_task_analysis`: the hard-coded
fallback profile used whenever AI classification fails. -/
def defaultTaskAnalysis : TaskAnalysis :=
  { task_type := "Deep Research", complexity := "Medium",
    requires_search := true, requires_multiple_rounds := true,
    estimated_steps := 5, estimated_time := "3-8 minutes",
    reasoning := "Default fallback to comprehensive research mode" }

/-- Outcome of the one classification call inside
`_analyze_task_type`: a response with text, an empty/missing response,
or a raised exception. -/
inductive ClassifyGateway where
  | responded (text : String)
  | emptyResponse
  | raised (msg : String)
  deriving Repr, DecidableEq

/-- `DynamicWorkflowBuilder._analyze_task_type`: without a client, on an
empty response, on a raised exception, or when `extract_json_from_text`
yields nothing, the default analysis is returned; the function never
propagates a failure. JSON extraction is passed in as a function, since
only its `Option` result is consumed. -/
def analyzeTaskType (hasClient : Bool) (gw : ClassifyGateway)
    (extractJson : String → Option TaskAnalysis) : TaskAnalysis :=
  if !hasClient then defaultTaskAnalysis
  else
    match gw with
    | .responded text =>
        match extractJson text with
        | some a => a
        | none => defaultTaskAnalysis
    | .emptyResponse => defaultTaskAnalysis
    | .raised _ => defaultTaskAnalysis

/-- The ways the classification call can fail: gateway error, empty
response, or a response whose JSON cannot be extracted. -/
def classificationFailed (gw : ClassifyGateway)
    (extractJson : String → Option TaskAnalysis) : Prop :=
  match gw with
  | .responded text => extractJson text = none
  | .emptyResponse => True
  | .raised _ => True

/-- One step configuration of the planned workflow. -/
structure StepConfig where
  name : String
  description : String
  deriving Repr, DecidableEq

/-- `DynamicWorkflowBuilder._create_workflow_steps`: deep-research
profiles that require search get the four research steps; other
search-requiring profiles get the simple search step; every workflow
ends with the final-answer step. -/
def createWorkflowSteps (a : TaskAnalysis) : List StepConfig :=
  let base :=
    if (a.task_type = "深度研究" ∨ a.task_type = "Deep Research")
        ∧ a.requires_search then
      [{ name := "generate_search_queries", description := "生成初步搜索查询" },
       { name := "execute_search", description := "执行初步网络搜索" },
       { name := "analyze_search_results", description := "分析搜索结果并进行反思" },
       { name := "supplementary_search", description := "根据反思进行补充搜索" }]
    else if a.requires_search then
      [{ name := "simple_search", description := "执行简单的网络搜索" }]
    else []
  base ++ [{ name := "generate_final_answer", description := "生成最终答案" }]

/-- Prefix test on character lists, used for the substring membership
check below. -/
def charPrefixOf : List Char → List Char → Bool
  | [], _ => true
  | _ :: _, [] => false
  | a :: as, b :: bs => a == b && charPrefixOf as bs

/-- Substring test on character lists: does the needle occur in the
haystack (the Python `needle in haystack` operator on strings)? -/
def charSubListOf (needle : List Char) : List Char → Bool
  | [] => needle.isEmpty
  | b :: t => charPrefixOf needle (b :: t) || charSubListOf needle t

/-- The quota keywords of `_analyze_search_results_step` and
`_supplementary_search_step`. -/
def quotaKeywords : List String :=
  ["quota", "resource_exhausted", "rate limit", "429"]

/-- Lowercasing of the error message (`str(e).lower()`), applied
character-wise; the quota keywords are plain ASCII. -/
def lowerChars (cs : List Char) : List Char := cs.map Char.toLower

/-- Quota-exhaustion classification: some keyword occurs in the
lowercased error message (`str(e).lower()`). -/
def isQuotaError (msg : String) : Bool :=
  quotaKeywords.any fun k => charSubListOf k.toList (lowerChars msg.toList)

/-- The reflection verdict dictionary of
`_analyze_search_results_step`. -/
structure ReflectionVerdict where
  is_sufficient : Bool
  knowledge_gap : String
  follow_up_queries : List String
  deriving Repr, DecidableEq

/-- Outcome of the reflection call in `_analyze_search_results_step`:
parsed JSON, unparseable JSON, no client available, or a raised
exception. -/
inductive ReflectionCall where
  | parsed (v : ReflectionVerdict)
  | badJson
  | noClient
  | raised (msg : String)
  deriving Repr

/-- Content threshold of the no-client degraded branch of
`_analyze_search_results_step`. -/
def noClientThreshold (effort : String) (currentRound : Nat) : Nat :=
  if effort = "low" then (if 2 ≤ currentRound then 800 else 1200)
  else if effort = "medium" then (if 2 ≤ currentRound then 1500 else 2000)
  else (if 3 ≤ currentRound then 2000 else 2500)

/-- Content threshold of the non-quota exception branch of
`_analyze_search_results_step`. -/
def errorThreshold (effort : String) (currentRound : Nat) : Nat :=
  if effort = "low" then (if 2 ≤ currentRound then 600 else 1000)
  else if effort = "medium" then (if 2 ≤ currentRound then 1000 else 1500)
  else (if 3 ≤ currentRound then 1500 else 2000)

/-- The `reflection_result` computed by `_analyze_search_results_step`
(research_engine.py lines 667-761) as a function of the reflection-call
outcome. A quota-classified exception forces `is_sufficient = true`
with no follow-up queries; other failures fall back to content-length
heuristics. -/
def analyzeVerdict (userQuery : String) (outcome : ReflectionCall)
    (researchResultsCount totalContent : Nat) (effort : String)
    (currentRound totalRounds : Nat) : ReflectionVerdict :=
  match outcome with
  | .parsed v => v
  | .badJson =>
      { is_sufficient := decide (2 ≤ researchResultsCount),
        knowledge_gap := "需要更多详细信息",
        follow_up_queries := [userQuery ++ " 详细分析", userQuery ++ " 最新发展"] }
  | .noClient =>
      let th := noClientThreshold effort currentRound
      { is_sufficient := decide (th < totalContent ∨ totalRounds ≤ currentRound),
        knowledge_gap :=
          if th < totalContent then "信息充足" else "需要更多详细信息",
        follow_up_queries :=
          if th < totalContent then [] else [userQuery ++ " 详细分析"] }
  | .raised msg =>
      if isQuotaError msg then
        { is_sufficient := true,
          knowledge_gap := "API配额耗尽，无法继续分析",
          follow_up_queries := [] }
      else
        let th := errorThreshold effort currentRound
        { is_sufficient := decide (th < totalContent ∨ totalRounds ≤ currentRound),
          knowledge_gap := "分析失败，使用简单判断",
          follow_up_queries :=
            if th < totalContent then [] else [userQuery ++ " 补充信息"] }

/-- One formatted citation line, `- {title}: {url}` with dict-get
defaults, as built in `_generate_final_answer_step` and
`_execute_search_step`. -/
def citationLine (c : Citation) : String :=
  "- " ++ c.title.getD "Unknown Source" ++ ": " ++ c.url.getD "#"

/-- The evidence summary block built for one successful result in
`_generate_final_answer_step` (lines 989-997): query, content and at
most three citation lines. -/
def summaryOf (r : SearchResultRec) : String :=
  let base := "Query: " ++ r.query ++ "\nContent: " ++ r.content
  if r.citations.isEmpty then base
  else base ++ "\nCitations:\n"
        ++ String.intercalate "\n" ((r.citations.take 3).map citationLine)

/-- The `web_research_content` block recorded by `_execute_search_step`
for a successful search (lines 616-622). -/
def webResearchContent (q : String) (res : RawResult) : String :=
  let base := "Query: " ++ q ++ "\nContent: " ++ res.content
  if res.citations.isEmpty then base
  else base ++ "\nCitations:\n"
        ++ String.intercalate "\n" ((res.citations.take 3).map citationLine)

/-- Answer returned when no successful search result exists
(line 986). -/
def noInfoAnswer (q : String) : String :=
  "抱歉，没有找到关于『" ++ q ++ "』的相关信息。"

/-- Answer returned when successful results exist but none has content
(line 1000). -/
def noContentAnswer (q : String) : String :=
  "抱歉，搜索结果没有包含有效内容来回答『" ++ q ++ "』。"

/-- Outcome of the answer-synthesis gateway call in
`_generate_final_answer_step`: a generated text, no client available,
or a raised exception. -/
inductive SynthesisCall where
  | ok (text : String)
  | noClient
  | raised (msg : String)
  deriving Repr, DecidableEq

/-- Evidence blocks joined by horizontal rules (the
`"\n\n---\n\n".join(search_summaries)` of the fallback branches). -/
def combinedContent (summaries : List String) : String :=
  String.intercalate "\n\n---\n\n" summaries

/-- Deterministic fallback answer used when the synthesis call raises
(lines 1062-1069). -/
def fallbackAnswerOnError (q : String) (summaries : List String) : String :=
  "# Research Results for: " ++ q ++ "\n\nBased on web search results:\n\n"
    ++ combinedContent summaries
    ++ "\n\nNote: This information is gathered from web searches. Please verify for accuracy."

/-- Deterministic answer used when no client is available
(lines 1052-1057). -/
def fallbackAnswerNoClient (q : String) (summaries : List String) : String :=
  "# Research Results for: " ++ q ++ "\n\n" ++ combinedContent summaries
    ++ "\n\nNote: This information is gathered from web searches. Please verify for accuracy."

/-- `_generate_final_answer_step` (lines 975-1071): filters the state's
results to the successful ones, returns the no-information message when
none exist, builds summaries from those with content, and otherwise
returns the synthesized text or — on any synthesis failure, which is
always caught — the deterministic fallback. The function is total: no
failure propagates to the caller. -/
def generateFinalAnswerStep (q : String) (stateResults : List SearchResultRec)
    (synth : SynthesisCall) : String :=
  let allResults := stateResults.filter fun r => r.success
  if allResults.isEmpty then noInfoAnswer q
  else
    let summaries := (allResults.filter fun r => r.content != "").map summaryOf
    if summaries.isEmpty then noContentAnswer q
    else
      match synth with
      | .ok t => t
      | .noClient => fallbackAnswerNoClient q summaries
      | .raised _ => fallbackAnswerOnError q summaries

/-- The per-query search capability seen by `_execute_search_step`: the
dictionary `search_with_grounding` returns (it never raises). -/
def SearchGateway : Type := String → RawResult

/-- Accumulated outcome of `_execute_search_step`: the updated state, the
`search_results` list handed to the next step, and the number of queries
looped over. -/
structure SearchStepOut where
  state : SearchState
  stepResults : List RawResult
  processed : Nat
  deriving Repr

/-- One iteration of the query loop in `_execute_search_step`
(lines 574-625): a successful result is recorded in the state (result
record plus web-research block) and appended to the step output; a
failed result is skipped entirely — nothing is recorded — and the loop
moves on to the next query. -/
def execSearchOne (gw : SearchGateway) (acc : SearchStepOut) (q : String) :
    SearchStepOut :=
  let res := gw q
  if res.success then
    { state := addWebResearch (addSearchResult acc.state q res)
        (webResearchContent q res),
      stepResults := acc.stepResults ++ [res],
      processed := acc.processed + 1 }
  else
    { acc with processed := acc.processed + 1 }

/-- `_execute_search_step`: folds the query loop over all queries. -/
def executeSearchStep (gw : SearchGateway) (s : SearchState)
    (queries : List String) : SearchStepOut :=
  queries.foldl (execSearchOne gw) { state := s, stepResults := [], processed := 0 }

/-- Effort presets applied by `_adjust_workflow_by_effort`
(research_engine.py lines 266-311), as
`(default_search_rounds, max_search_rounds, queries_per_round)`:
low → (1, 3, 3), high → (5, 5, 10), anything else → medium (3, 3, 5). -/
def effortPreset (effort : String) : Nat × Nat × Nat :=
  if effort = "low" then (1, 3, 3)
  else if effort = "high" then (5, 5, 10)
  else (3, 3, 5)

/-- The environment of one `_execute_workflow` run: `stop r` is the value
of the engine's `_stop_research` flag observed at the top of the loop
iteration whose counter is `r`; `verdict n` is the `is_sufficient` field
produced by the analyze step invoked with `current_round = n`;
`addContent n` is the total evidence length added by the searches of the
supplementary step invoked with `current_round = n`; `initContent` is
the evidence length accumulated by the initial search phase. -/
structure LoopEnv where
  stop : Nat → Bool
  verdict : Nat → Bool
  addContent : Nat → Nat
  initContent : Nat

/-- Observable outcome of the supplementary-search loop:
the final value of `current_round`, the number of loop bodies executed,
the number of iterations whose supplementary step actually performed
searches, whether the loop exited through the stop-flag check, and the
final sufficiency flag and evidence length. -/
structure LoopResult where
  finalRound : Nat
  iterations : Nat
  searchRounds : Nat
  stoppedByFlag : Bool
  suffFinal : Bool
  contentFinal : Nat
  deriving Repr, DecidableEq

/-- The supplementary-search while-loop of `_execute_workflow`
(research_engine.py lines 423-516), with explicit fuel standing for the
loop condition `current_round < effective_max_rounds`: the caller
instantiates `fuel` with `effective_max_rounds - current_round`, so fuel
runs out exactly when the condition fails. Per iteration: the stop flag
is checked first; once `default_rounds ≤ current_round` a sufficient
verdict breaks the loop, and with an insufficient verdict the two
escalating content heuristics may break it; otherwise the supplementary
step runs (its internal `current_round > total_rounds` guard cannot fire
inside the loop, and it skips all searching when the latest verdict is
sufficient), the analyze step produces the next verdict, and the round
counter increments by one. -/
def runLoop (env : LoopEnv) (effort : String) (defaultRounds : Nat) :
    Nat → Nat → Bool → Nat → LoopResult
  | 0, r, suff, content =>
      { finalRound := r, iterations := 0, searchRounds := 0,
        stoppedByFlag := false, suffFinal := suff, contentFinal := content }
  | fuel + 1, r, suff, content =>
      if env.stop r then
        { finalRound := r, iterations := 0, searchRounds := 0,
          stoppedByFlag := true, suffFinal := suff, contentFinal := content }
      else if defaultRounds ≤ r ∧ suff = true then
        { finalRound := r, iterations := 0, searchRounds := 0,
          stoppedByFlag := false, suffFinal := suff, contentFinal := content }
      else if defaultRounds ≤ r ∧ suff = false ∧ effort = "low" ∧ 2 ≤ r
          ∧ 800 < content then
        { finalRound := r, iterations := 0, searchRounds := 0,
          stoppedByFlag := false, suffFinal := suff, contentFinal := content }
      else if defaultRounds ≤ r ∧ suff = false ∧ 3 ≤ r ∧ 1200 < content then
        { finalRound := r, iterations := 0, searchRounds := 0,
          stoppedByFlag := false, suffFinal := suff, contentFinal := content }
      else
        let content1 := if suff then content else content + env.addContent (r + 1)
        let suff1 := env.verdict (r + 1)
        let rest := runLoop env effort defaultRounds fuel (r + 1) suff1 content1
        { finalRound := rest.finalRound, iterations := rest.iterations + 1,
          searchRounds := rest.searchRounds + (if suff then 0 else 1),
          stoppedByFlag := rest.stoppedByFlag, suffFinal := rest.suffFinal,
          contentFinal := rest.contentFinal }

/-- `_execute_workflow` on the deep-research workflow: the initial phase
runs `generate_search_queries`, `execute_search` and the initial
`analyze_search_results` (the reflection with `current_round = 1`), and
the supplementary loop then starts at `current_round = 1` with that
verdict and the initial evidence. -/
def execLoop (env : LoopEnv) (effort : String) (defaultRounds maxRounds : Nat) :
    LoopResult :=
  runLoop env effort defaultRounds (maxRounds - 1) 1 (env.verdict 1)
    env.initContent

/-- Reflection cycles performed by a deep-research run: the initial
analyze step plus one per loop iteration. -/
def reflectionCycles (lr : LoopResult) : Nat := 1 + lr.iterations

/-- Environment of one `ResearchEngine.research` call: the loop
environment plus the stop-flag values observed at the three explicit
checks outside the loop (after `start_new_task`, after the workflow is
built, and after `_execute_workflow` returns — the last check is in the
source but unreachable, see `researchRun`). -/
structure ResearchEnv where
  loopEnv : LoopEnv
  stopAfterStart : Bool
  stopAfterBuild : Bool
  stopAfterWorkflow : Bool

/-- Observable outcome of one `research` call: the `success` field of the
returned dictionary, the final status of the current task, whether the
`generate_final_answer` step was invoked, and the loop outcome when the
run reached the loop. -/
structure ResearchOutcome where
  success : Bool
  status : TaskStatus
  finalAnswerInvoked : Bool
  loop : Option LoopResult
  deriving Repr, DecidableEq

/-- `ResearchEngine.research` as composed in the source
(research_engine.py lines 85-212), at the level of task status and step
invocations. The new task starts pending; the two stop checks before
workflow injection (lines 122 and 132) return a failure dictionary early
with the task still pending. Every run that passes them then raises
inside `_inject_research_functions` (line 136): it iterates
`workflow.steps_config` (line 327), an attribute `DynamicWorkflow`
(workflow_builder.py lines 60-74) never defines — the earlier access at
line 231 is caught inside `_analyze_and_build_workflow`, whose fallback
workflow lacks the attribute just the same — so the AttributeError
reaches the top-level handler (line 182), which calls `fail_task`: the
task ends failed and `{success: false}` is returned. Even absent that,
the next line (139) evaluates `TaskStatus.ANALYZING` although
`TaskStatus` is never imported into the module, a NameError with the
same handler. `_execute_workflow` is therefore never reached from
`research`: the supplementary loop never starts, `generate_final_answer`
is never invoked, the third stop check (line 143) is dead, and no path
assigns the cancelled status. -/
def researchRun (renv : ResearchEnv) (_effort : String) : ResearchOutcome :=
  if renv.stopAfterStart then
    { success := false, status := .pending, finalAnswerInvoked := false,
      loop := none }
  else if renv.stopAfterBuild then
    { success := false, status := .pending, finalAnswerInvoked := false,
      loop := none }
  else
    { success := false, status := .failed, finalAnswerInvoked := false,
      loop := none }

/-- The mock gateway of the round-bound property test: the stop flag is
never set, every reflection reports insufficient, and searches add no
evidence. -/
def mockInsufficientEnv : LoopEnv :=
  { stop := fun _ => false, verdict := fun _ => false,
    addContent := fun _ => 0, initContent := 0 }

/-- Scenario: the user requests cancellation while the loop still has
rounds left — the stop flag reads true at every check from the first
loop iteration on, and still after the workflow returns. -/
def stopMidLoopEnv : ResearchEnv :=
  { loopEnv := { stop := fun _ => true, verdict := fun _ => false,
                 addContent := fun _ => 0, initContent := 0 },
    stopAfterStart := false, stopAfterBuild := false,
    stopAfterWorkflow := true }

/-- Scenario: no cancellation is ever requested; the gateway would
report insufficient throughout — the plain uncancelled run. -/
def noStopResearchEnv : ResearchEnv :=
  { loopEnv := mockInsufficientEnv, stopAfterStart := false,
    stopAfterBuild := false, stopAfterWorkflow := false }

/-- A quota-style error message as raised by the Gemini client. -/
def quotaMsg : String := "429 RESOURCE_EXHAUSTED: rate limit"

/-- Scenario: every reflection call fails with the quota error, so every
verdict is the quota-forced one; searches add no evidence. -/
def quotaVerdictEnv : LoopEnv :=
  { stop := fun _ => false,
    verdict := fun k =>
      (analyzeVerdict "q" (.raised quotaMsg) 0 0 "medium" k 3).is_sufficient,
    addContent := fun _ => 0, initContent := 0 }

/-- Scenario: the reflection gateway reports sufficient from round 1 on;
searches add no evidence and the stop flag stays clear. -/
def allSufficientEnv : LoopEnv :=
  { stop := fun _ => false, verdict := fun _ => true,
    addContent := fun _ => 0, initContent := 0 }

/-- Scenario: a search gateway whose every call fails with a network
error (success = false, as `search_with_grounding` reports it). -/
def failingGateway : SearchGateway := fun q =>
  { success := false, query := q, content := "", citations := [],
    urls := [], has_grounding := false, duration := 0,
    error := "network error" }

/-- Scenario: one successful search result with content and a
citation. -/
def sampleResult : SearchResultRec :=
  { query := "q", content := "some evidence",
    citations := [{ title := some "Src", url := some "https://example.com" }],
    urls := ["https://example.com"], has_grounding := true, duration := 1,
    success := true, error := "" }

/-- Helper: the round counter advances by exactly one per executed loop
body, so the final round is the entry round plus the iteration count. -/
theorem runLoop_finalRound (env : LoopEnv) (e : String) (d : Nat) :
    ∀ (fuel r : Nat) (suff : Bool) (c : Nat),
      (runLoop env e d fuel r suff c).finalRound
        = r + (runLoop env e d fuel r suff c).iterations := by
  intro fuel
  induction fuel with
  | zero => intro r suff c; rfl
  | succ n ih =>
      intro r suff c
      simp only [runLoop]
      split
      · rfl
      split
      · rfl
      split
      · rfl
      split
      · rfl
      simp only []
      rw [ih]
      omega

/-- Helper: the loop executes at most `fuel` bodies. -/
theorem runLoop_iterations_le (env : LoopEnv) (e : String) (d : Nat) :
    ∀ (fuel r : Nat) (suff : Bool) (c : Nat),
      (runLoop env e d fuel r suff c).iterations ≤ fuel := by
  intro fuel
  induction fuel with
  | zero => intro r suff c; exact Nat.le_refl 0
  | succ n ih =>
      intro r suff c
      simp only [runLoop]
      split
      · exact Nat.zero_le _
      split
      · exact Nat.zero_le _
      split
      · exact Nat.zero_le _
      split
      · exact Nat.zero_le _
      simp only []
      exact Nat.succ_le_succ (ih _ _ _)

/-- Helper: under the always-insufficient mock gateway with no added
evidence, the loop never breaks early and uses its whole budget. -/
theorem runLoop_mock (e : String) (d : Nat) :
    ∀ (fuel r : Nat),
      runLoop mockInsufficientEnv e d fuel r false 0
        = { finalRound := r + fuel, iterations := fuel, searchRounds := fuel,
            stoppedByFlag := false, suffFinal := false, contentFinal := 0 } := by
  have hs : ∀ k, mockInsufficientEnv.stop k = false := fun _ => rfl
  have hv : ∀ k, mockInsufficientEnv.verdict k = false := fun _ => rfl
  have ha : ∀ k, mockInsufficientEnv.addContent k = 0 := fun _ => rfl
  intro fuel
  induction fuel with
  | zero => intro r; rfl
  | succ n ih =>
      intro r
      simp [runLoop, hs, hv, ha, ih, LoopResult.mk.injEq]
      omega

/-- Helper: a set stop flag makes the loop exit before doing anything in
the iteration at which it is observed. -/
theorem runLoop_stop (env : LoopEnv) (e : String) (d fuel r : Nat)
    (suff : Bool) (c : Nat) (h : env.stop r = true) :
    runLoop env e d (fuel + 1) r suff c
      = { finalRound := r, iterations := 0, searchRounds := 0,
          stoppedByFlag := true, suffFinal := suff, contentFinal := c } := by
  simp [runLoop, h]

/-- Helper: once the round counter has reached `default_rounds`, a
sufficient verdict makes the loop exit immediately. -/
theorem runLoop_suffExit (env : LoopEnv) (e : String) (d fuel r c : Nat)
    (hstop : env.stop r = false) (hd : d ≤ r) :
    runLoop env e d (fuel + 1) r true c
      = { finalRound := r, iterations := 0, searchRounds := 0,
          stoppedByFlag := false, suffFinal := true, contentFinal := c } := by
  simp [runLoop, hstop, hd]

/-- Helper: while every verdict reports sufficient, the supplementary
step never performs a search, in any iteration of the loop. -/
theorem runLoop_suffNoSearch (env : LoopEnv) (e : String) (d : Nat)
    (hv : ∀ k, env.verdict k = true) :
    ∀ (fuel r c : Nat),
      (runLoop env e d fuel r true c).searchRounds = 0 := by
  intro fuel
  induction fuel with
  | zero => intro r c; rfl
  | succ n ih =>
      intro r c
      simp only [runLoop]
      split
      · rfl
      split
      · rfl
      split
      · rfl
      split
      · rfl
      simp [hv, ih]

/-- Helper: `add_search_result` appends exactly one record to the result
list, whatever happens to the history. -/
theorem addSearchResult_results (s : SearchState) (q : String)
    (res : RawResult) :
    (addSearchResult s q res).search_results
      = s.search_results ++ [toSearchResultRec q res] := by
  simp only [addSearchResult]
  split <;> rfl

/-- Helper: recording a web-research block leaves the result list
unchanged. -/
theorem addWebResearch_results (s : SearchState) (c : String) :
    (addWebResearch s c).search_results = s.search_results := rfl

/-- Helper: the search-step fold stores exactly the records of the
successful queries, in order, after the pre-existing ones. -/
theorem execSearch_foldl_results (gw : SearchGateway) :
    ∀ (queries : List String) (acc : SearchStepOut),
      ((queries.foldl (execSearchOne gw) acc)).state.search_results
        = acc.state.search_results
          ++ (queries.filter fun q => (gw q).success).map
              fun q => toSearchResultRec q (gw q) := by
  intro queries
  induction queries with
  | nil => intro acc; simp
  | cons q qs ih =>
      intro acc
      simp only [List.foldl_cons, List.filter_cons]
      by_cases h : (gw q).success
      · rw [ih]
        simp [execSearchOne, h, addWebResearch_results, addSearchResult_results]
      · rw [ih]
        simp [execSearchOne, h]

/-- Helper: the search-step fold visits every query, also the failing
ones. -/
theorem execSearch_foldl_processed (gw : SearchGateway) :
    ∀ (queries : List String) (acc : SearchStepOut),
      ((queries.foldl (execSearchOne gw) acc)).processed
        = acc.processed + queries.length := by
  intro queries
  induction queries with
  | nil => intro acc; simp
  | cons q qs ih =>
      intro acc
      simp only [List.foldl_cons]
      rw [ih]
      by_cases h : (gw q).success <;> simp [execSearchOne, h] <;> omega

/-- Invariant of the query history: no duplicates and no empty query. -/
def historyInv (s : SearchState) : Prop :=
  s.search_history.Nodup ∧ "" ∉ s.search_history

/-- Helper: one conditional history append preserves the invariant. -/
theorem addQueryOne_inv (s : SearchState) (q : String)
    (h : historyInv s) : historyInv (addQueryOne s q) := by
  unfold historyInv at h ⊢
  unfold addQueryOne
  split
  · rename_i hc
    constructor
    · exact h.1.append (List.nodup_singleton q)
        (List.disjoint_singleton.mpr hc.2)
    · intro hm
      rcases List.mem_append.mp hm with hm | hm
      · exact h.2 hm
      · exact hc.1 (List.mem_singleton.mp hm).symm
  · exact h

/-- Helper: `add_search_queries` preserves the history invariant. -/
theorem addSearchQueries_inv (qs : List String) :
    ∀ (s : SearchState), historyInv s → historyInv (addSearchQueries s qs) := by
  induction qs with
  | nil => intro s h; exact h
  | cons q qs ih =>
      intro s h
      exact ih _ (addQueryOne_inv s q h)

/-- Helper: `add_search_result` preserves the history invariant and
appends one record. -/
theorem addSearchResult_inv (s : SearchState) (q : String) (res : RawResult)
    (h : historyInv s) : historyInv (addSearchResult s q res) := by
  unfold historyInv at h ⊢
  unfold addSearchResult
  dsimp only
  split
  · rename_i hc
    constructor
    · exact h.1.append (List.nodup_singleton q)
        (List.disjoint_singleton.mpr hc.2)
    · intro hm
      rcases List.mem_append.mp hm with hm | hm
      · exact h.2 hm
      · exact hc.1 (List.mem_singleton.mp hm).symm
  · exact h

/-- Helper: `addQueryOne` does not touch the result list. -/
theorem addQueryOne_results (s : SearchState) (q : String) :
    (addQueryOne s q).search_results = s.search_results := by
  unfold addQueryOne; split <;> rfl

/-- Helper: `add_search_queries` does not touch the result list. -/
theorem addSearchQueries_results (qs : List String) :
    ∀ (s : SearchState),
      (addSearchQueries s qs).search_results = s.search_results := by
  induction qs with
  | nil => intro s; rfl
  | cons q qs ih =>
      intro s
      unfold addSearchQueries at ih ⊢
      rw [List.foldl_cons, ih, addQueryOne_results]

/-- Helper: a history-operation sequence preserves the invariant and
appends one result record per `add_search_result` call. -/
theorem applyHistoryOps_inv (ops : List HistoryOp) :
    ∀ (s : SearchState), historyInv s →
      historyInv (applyHistoryOps s ops)
      ∧ (applyHistoryOps s ops).search_results.length
          = s.search_results.length + countResultOps ops := by
  induction ops with
  | nil => intro s h; exact ⟨h, rfl⟩
  | cons op ops ih =>
      intro s h
      match op with
      | .addQueries qs =>
          have hrec := ih (addSearchQueries s qs) (addSearchQueries_inv qs s h)
          refine ⟨hrec.1, ?_⟩
          rw [show applyHistoryOps s (HistoryOp.addQueries qs :: ops)
                = applyHistoryOps (addSearchQueries s qs) ops from rfl]
          rw [hrec.2, addSearchQueries_results]
          simp [countResultOps]
      | .addResult q res =>
          have hrec := ih (addSearchResult s q res)
            (addSearchResult_inv s q res h)
          refine ⟨hrec.1, ?_⟩
          rw [show applyHistoryOps s (HistoryOp.addResult q res :: ops)
                = applyHistoryOps (addSearchResult s q res) ops from rfl]
          rw [hrec.2, addSearchResult_results]
          simp [countResultOps]
          omega

/-- Claim C1 (counterexample): with cancellation requested while
supplementary rounds remain, the run ends with status failed — not
cancelled — and with no cancellation requested at all,
generate_final_answer is still never invoked and the loop outcome does
not exist: every research run dies at workflow injection, before
`_execute_workflow`, so both halves of the claim fail against the
composed source. -/
theorem c1_cancellation_counterexample :
    (researchRun stopMidLoopEnv "medium").status ≠ TaskStatus.cancelled
    ∧ (researchRun stopMidLoopEnv "medium").status = TaskStatus.failed
    ∧ (researchRun stopMidLoopEnv "medium").finalAnswerInvoked = false
    ∧ (researchRun noStopResearchEnv "medium").finalAnswerInvoked = false
    ∧ (researchRun noStopResearchEnv "medium").status = TaskStatus.failed
    ∧ (researchRun noStopResearchEnv "medium").loop = none := by
  exact ⟨by decide, rfl, rfl, rfl, rfl, rfl⟩

/-- Claim C1 (amended): every research run — whether or not cancellation
is requested, and at whichever point — fails during workflow-function
injection before the supplementary loop can start: the task status is
never cancelled, generate_final_answer is never invoked, no loop outcome
exists, and any run that passes the two early stop checks ends with
status failed and success = false (a run stopped at those checks returns
success = false with the task still pending). Within the
`_execute_workflow` function itself, unreachable from research, a stop
flag observed at a loop iteration would still exit the loop with nothing
further executed inside it. -/
theorem c1_cancellation_amended (renv : ResearchEnv) (e : String)
    (d fuel r : Nat) (suff : Bool) (c : Nat)
    (hstop : renv.loopEnv.stop r = true) :
    (researchRun renv e).status ≠ TaskStatus.cancelled
    ∧ (researchRun renv e).finalAnswerInvoked = false
    ∧ (researchRun renv e).loop = none
    ∧ (renv.stopAfterStart = false → renv.stopAfterBuild = false →
        (researchRun renv e).status = TaskStatus.failed
        ∧ (researchRun renv e).success = false)
    ∧ runLoop renv.loopEnv e d (fuel + 1) r suff c
        = { finalRound := r, iterations := 0, searchRounds := 0,
            stoppedByFlag := true, suffFinal := suff, contentFinal := c } := by
  refine ⟨?_, ?_, ?_, ?_, runLoop_stop renv.loopEnv e d fuel r suff c hstop⟩
  · cases h1 : renv.stopAfterStart <;> cases h2 : renv.stopAfterBuild <;>
      simp [researchRun, h1, h2]
  · cases h1 : renv.stopAfterStart <;> cases h2 : renv.stopAfterBuild <;>
      simp [researchRun, h1, h2]
  · cases h1 : renv.stopAfterStart <;> cases h2 : renv.stopAfterBuild <;>
      simp [researchRun, h1, h2]
  · intro h1 h2
    simp [researchRun, h1, h2]

/-- Witness for the amended C1 at the concrete cancellation scenario. -/
theorem c1_cancellation_amended_witness :
    (researchRun stopMidLoopEnv "medium").status ≠ TaskStatus.cancelled
    ∧ (researchRun stopMidLoopEnv "medium").finalAnswerInvoked = false
    ∧ (researchRun stopMidLoopEnv "medium").loop = none
    ∧ (researchRun stopMidLoopEnv "medium").status = TaskStatus.failed
    ∧ (researchRun stopMidLoopEnv "medium").success = false
    ∧ runLoop stopMidLoopEnv.loopEnv "medium" 3 2 1 false 0
        = { finalRound := 1, iterations := 0, searchRounds := 0,
            stoppedByFlag := true, suffFinal := false, contentFinal := 0 } := by
  have h := c1_cancellation_amended stopMidLoopEnv "medium" 3 1 1 false 0 rfl
  exact ⟨h.1, h.2.1, h.2.2.1, (h.2.2.2.1 rfl rfl).1, (h.2.2.2.1 rfl rfl).2,
    h.2.2.2.2⟩

/-- Claim C2 (confirmed): for each effort level and every environment —
so for every sequence of reflection verdicts — the deep-research run
performs at most maxRounds reflection cycles, the round counter advances
by exactly one per loop iteration, the loop ends within its finite
budget, and under the always-insufficient mock gateway it performs
exactly maxRounds reflection cycles. -/
theorem c2_round_bound (e : String)
    (he : e = "low" ∨ e = "medium" ∨ e = "high") (env : LoopEnv) :
    reflectionCycles (execLoop env e (effortPreset e).1 (effortPreset e).2.1)
        ≤ (effortPreset e).2.1
    ∧ (execLoop env e (effortPreset e).1 (effortPreset e).2.1).finalRound
        = 1 + (execLoop env e (effortPreset e).1 (effortPreset e).2.1).iterations
    ∧ (execLoop env e (effortPreset e).1 (effortPreset e).2.1).iterations
        ≤ (effortPreset e).2.1 - 1
    ∧ reflectionCycles (execLoop mockInsufficientEnv e (effortPreset e).1
        (effortPreset e).2.1) = (effortPreset e).2.1 := by
  have hb : (execLoop env e (effortPreset e).1 (effortPreset e).2.1).iterations
      ≤ (effortPreset e).2.1 - 1 :=
    runLoop_iterations_le env e (effortPreset e).1 ((effortPreset e).2.1 - 1) 1
      (env.verdict 1) env.initContent
  have hf : (execLoop env e (effortPreset e).1 (effortPreset e).2.1).finalRound
      = 1 + (execLoop env e (effortPreset e).1 (effortPreset e).2.1).iterations := by
    have := runLoop_finalRound env e (effortPreset e).1
      ((effortPreset e).2.1 - 1) 1 (env.verdict 1) env.initContent
    simpa [execLoop, Nat.add_comm] using this
  have hm1 : (1 : Nat) ≤ (effortPreset e).2.1 := by
    rcases he with h | h | h <;> subst h <;> decide
  refine ⟨?_, hf, hb, ?_⟩
  · unfold reflectionCycles
    omega
  · rcases he with h | h | h <;> subst h <;> decide

/-- Witness for C2 at effort medium with the mock gateway. -/
theorem c2_round_bound_witness :
    reflectionCycles (execLoop mockInsufficientEnv "medium"
        (effortPreset "medium").1 (effortPreset "medium").2.1)
      ≤ (effortPreset "medium").2.1
    ∧ (execLoop mockInsufficientEnv "medium" (effortPreset "medium").1
        (effortPreset "medium").2.1).finalRound
      = 1 + (execLoop mockInsufficientEnv "medium" (effortPreset "medium").1
        (effortPreset "medium").2.1).iterations
    ∧ (execLoop mockInsufficientEnv "medium" (effortPreset "medium").1
        (effortPreset "medium").2.1).iterations
      ≤ (effortPreset "medium").2.1 - 1
    ∧ reflectionCycles (execLoop mockInsufficientEnv "medium"
        (effortPreset "medium").1 (effortPreset "medium").2.1)
      = (effortPreset "medium").2.1 :=
  c2_round_bound "medium" (Or.inr (Or.inl rfl)) mockInsufficientEnv

/-- Claim C3 (counterexample): at effort medium the quota-forced
sufficient verdict from round 1 does not end the supplementary loop —
the sufficiency check is unreachable while the round counter is below
the default target, so two further supplementary rounds, each invoking
the reflection step again, still execute although the whole budget
remained. -/
theorem c3_quota_fast_stop_counterexample :
    isQuotaError quotaMsg = true
    ∧ (analyzeVerdict "q" (.raised quotaMsg) 0 0 "medium" 1 3).is_sufficient
        = true
    ∧ (execLoop quotaVerdictEnv "medium" 3 3).iterations = 2 := by
  refine ⟨by decide, by decide, by decide⟩

/-- Claim C3 (amended): a reflection failure classified as
quota-exhausted — message containing quota, resource_exhausted, rate
limit or 429 — forces a verdict with isSufficient = true and no
follow-up queries; while every verdict stays sufficient no supplementary
search is performed in any remaining round, and once the round counter
has reached the default target the loop terminates immediately; at
effort levels whose default equals the ceiling the earlier loop
iterations still execute, searching skipped. -/
theorem c3_quota_fast_stop_amended (uq msg e : String)
    (cnt tot tr : Nat) (env : LoopEnv) (d fuel r c : Nat)
    (hq : isQuotaError msg = true)
    (hv : ∀ k, env.verdict k
        = (analyzeVerdict uq (.raised msg) cnt tot e k tr).is_sufficient)
    (hstop : env.stop r = false) (hd : d ≤ r) :
    analyzeVerdict uq (.raised msg) cnt tot e r tr
        = { is_sufficient := true,
            knowledge_gap := "API配额耗尽，无法继续分析",
            follow_up_queries := [] }
    ∧ (runLoop env e d fuel r true c).searchRounds = 0
    ∧ runLoop env e d (fuel + 1) r true c
        = { finalRound := r, iterations := 0, searchRounds := 0,
            stoppedByFlag := false, suffFinal := true, contentFinal := c } := by
  have hverd : ∀ k, env.verdict k = true := by
    intro k
    rw [hv k]
    simp [analyzeVerdict, hq]
  exact ⟨by simp [analyzeVerdict, hq],
    runLoop_suffNoSearch env e d hverd fuel r c,
    runLoop_suffExit env e d fuel r c hstop hd⟩

/-- Witness for the amended C3 at the concrete quota scenario. -/
theorem c3_quota_fast_stop_amended_witness :
    analyzeVerdict "q" (.raised quotaMsg) 0 0 "medium" 1 3
        = { is_sufficient := true,
            knowledge_gap := "API配额耗尽，无法继续分析",
            follow_up_queries := [] }
    ∧ (runLoop quotaVerdictEnv "medium" 1 2 1 true 0).searchRounds = 0
    ∧ runLoop quotaVerdictEnv "medium" 1 3 1 true 0
        = { finalRound := 1, iterations := 0, searchRounds := 0,
            stoppedByFlag := false, suffFinal := true, contentFinal := 0 } :=
  c3_quota_fast_stop_amended "q" quotaMsg "medium" 0 0 3 quotaVerdictEnv
    1 2 1 0 (by decide) (fun _ => rfl) rfl (by decide)

/-- Claim C4 (counterexample): at effort medium a sufficient verdict
already on round 1 does not stop the supplementary loop — two further
iterations, each invoking the reflection step, still execute; only the
searches inside them are skipped. -/
theorem c4_early_stop_counterexample :
    allSufficientEnv.verdict 1 = true
    ∧ (execLoop allSufficientEnv "medium" 3 3).iterations = 2
    ∧ (execLoop allSufficientEnv "medium" 3 3).searchRounds = 0 := by
  exact ⟨rfl, by decide, by decide⟩

/-- Claim C4 (amended): while the most recent reflection verdict reports
sufficient, no supplementary search call occurs in any remaining round —
the supplementary step skips its searching — and the loop itself stops
as soon as the round counter has reached the effort level's default
target; in particular, at effort low a sufficient verdict on round 1
ends the loop with no iteration at all, while at effort levels whose
default equals the ceiling the remaining iterations still run without
searching. -/
theorem c4_early_stop_amended (env : LoopEnv) (e : String)
    (d fuel r c : Nat)
    (hv : ∀ k, env.verdict k = true) (hstop1 : env.stop 1 = false) :
    (runLoop env e d fuel r true c).searchRounds = 0
    ∧ env.verdict 1 = true
    ∧ execLoop env "low" 1 3
        = { finalRound := 1, iterations := 0, searchRounds := 0,
            stoppedByFlag := false, suffFinal := true,
            contentFinal := env.initContent } := by
  refine ⟨runLoop_suffNoSearch env e d hv fuel r c, hv 1, ?_⟩
  unfold execLoop
  rw [hv 1]
  exact runLoop_suffExit env "low" 1 1 1 env.initContent hstop1 (Nat.le_refl 1)

/-- Witness for the amended C4 at the all-sufficient scenario. -/
theorem c4_early_stop_amended_witness :
    (runLoop allSufficientEnv "medium" 3 2 1 true 0).searchRounds = 0
    ∧ allSufficientEnv.verdict 1 = true
    ∧ execLoop allSufficientEnv "low" 1 3
        = { finalRound := 1, iterations := 0, searchRounds := 0,
            stoppedByFlag := false, suffFinal := true, contentFinal := 0 } :=
  c4_early_stop_amended allSufficientEnv "medium" 3 2 1 0 (fun _ => rfl) rfl

/-- Claim C5 (confirmed): whenever the classification call fails —
gateway error, empty response, or malformed/missing JSON — planning
returns the hard-coded fallback profile (task type Deep Research,
complexity Medium, search and multiple rounds required) together with a
non-empty step list; the classification function is total, so no
failure propagates to the caller. -/
theorem c5_classification_fallback (gw : ClassifyGateway)
    (extractJson : String → Option TaskAnalysis)
    (h : classificationFailed gw extractJson) :
    analyzeTaskType true gw extractJson = defaultTaskAnalysis
    ∧ defaultTaskAnalysis.task_type = "Deep Research"
    ∧ defaultTaskAnalysis.complexity = "Medium"
    ∧ defaultTaskAnalysis.requires_search = true
    ∧ defaultTaskAnalysis.requires_multiple_rounds = true
    ∧ createWorkflowSteps (analyzeTaskType true gw extractJson) ≠ [] := by
  have h1 : analyzeTaskType true gw extractJson = defaultTaskAnalysis := by
    cases gw with
    | responded text =>
        have hx : extractJson text = none := h
        simp [analyzeTaskType, hx]
    | emptyResponse => rfl
    | raised msg => rfl
  refine ⟨h1, rfl, rfl, rfl, rfl, ?_⟩
  rw [h1]
  decide

/-- Witness for C5 at a raised gateway error with unparseable JSON. -/
theorem c5_classification_fallback_witness :
    analyzeTaskType true (.raised "boom") (fun _ => none) = defaultTaskAnalysis
    ∧ defaultTaskAnalysis.task_type = "Deep Research"
    ∧ defaultTaskAnalysis.complexity = "Medium"
    ∧ defaultTaskAnalysis.requires_search = true
    ∧ defaultTaskAnalysis.requires_multiple_rounds = true
    ∧ createWorkflowSteps (analyzeTaskType true (.raised "boom")
        (fun _ => none)) ≠ [] :=
  c5_classification_fallback (.raised "boom") (fun _ => none) trivial

/-- Claim C6 (counterexample): starting a second task while the first is
still analyzing is accepted, not rejected — the first task is archived
still carrying its non-terminal status, so the session then holds two
task records in a non-terminal (active) status. -/
theorem c6_single_active_counterexample :
    activeCount ((startNewTask (updateTaskStatus
        ((startNewTask initialTaskSession "q1" "t1").1) TaskStatus.analyzing)
        "q2" "t2").1) = 2
    ∧ ((startNewTask (updateTaskStatus
        ((startNewTask initialTaskSession "q1" "t1").1) TaskStatus.analyzing)
        "q2" "t2").2) = "t2"
    ∧ ((startNewTask (updateTaskStatus
        ((startNewTask initialTaskSession "q1" "t1").1) TaskStatus.analyzing)
        "q2" "t2").1).total_tasks = 2 := by
  exact ⟨rfl, rfl, rfl⟩

/-- Claim C6 (amended): the session holds at most one current task, and
starting a new task while one is active is accepted rather than
rejected: the previous task is archived into the history with its
status unchanged, superseded by a fresh pending current task, and the
new task id is returned — archived records may therefore retain a
non-terminal status. -/
theorem c6_single_active_amended (s : TaskSession) (q tid : String) :
    (startNewTask s q tid).1.current_task
        = some { task_id := tid, user_query := q, status := .pending }
    ∧ (startNewTask s q tid).1.task_history
        = s.task_history ++ s.current_task.toList
    ∧ (startNewTask s q tid).1.total_tasks = s.total_tasks + 1
    ∧ (startNewTask s q tid).2 = tid :=
  ⟨rfl, rfl, rfl, rfl⟩

/-- Claim C7 (confirmed): in any loop iteration that has reached the
default round target with an insufficient last verdict, the escalating
early-stop heuristics stop the loop: at effort low once the round is at
least 2 and the accumulated evidence exceeds 800 characters, and at any
effort once the round is at least 3 and the evidence exceeds 1200
characters. -/
theorem c7_early_stop_heuristics (env : LoopEnv) (e : String)
    (d fuel r c : Nat) (hstop : env.stop r = false) (hd : d ≤ r) :
    (e = "low" → 2 ≤ r → 800 < c →
      runLoop env e d (fuel + 1) r false c
        = { finalRound := r, iterations := 0, searchRounds := 0,
            stoppedByFlag := false, suffFinal := false, contentFinal := c })
    ∧ (3 ≤ r → 1200 < c →
      runLoop env e d (fuel + 1) r false c
        = { finalRound := r, iterations := 0, searchRounds := 0,
            stoppedByFlag := false, suffFinal := false, contentFinal := c }) := by
  constructor
  · intro he h2 h8
    simp only [runLoop]
    rw [if_neg (by simp [hstop]), if_neg (by simp),
        if_pos ⟨hd, trivial, he, h2, h8⟩]
  · intro h3 h12
    simp only [runLoop]
    rw [if_neg (by simp [hstop]), if_neg (by simp)]
    by_cases hlow : e = "low" ∧ 2 ≤ r ∧ 800 < c
    · rw [if_pos ⟨hd, trivial, hlow.1, hlow.2.1, hlow.2.2⟩]
    · rw [if_neg (fun hc => hlow ⟨hc.2.2.1, hc.2.2.2.1, hc.2.2.2.2⟩),
          if_pos ⟨hd, trivial, h3, h12⟩]

/-- Witness for C7: the low-effort 800-character stop at round 2 and the
any-effort 1200-character stop at round 3. -/
theorem c7_early_stop_heuristics_witness :
    runLoop mockInsufficientEnv "low" 1 3 2 false 900
      = { finalRound := 2, iterations := 0, searchRounds := 0,
          stoppedByFlag := false, suffFinal := false, contentFinal := 900 }
    ∧ runLoop mockInsufficientEnv "medium" 3 3 3 false 1300
      = { finalRound := 3, iterations := 0, searchRounds := 0,
          stoppedByFlag := false, suffFinal := false, contentFinal := 1300 } :=
  ⟨(c7_early_stop_heuristics mockInsufficientEnv "low" 1 2 2 900 rfl
      (by decide)).1 rfl (by decide) (by decide),
   (c7_early_stop_heuristics mockInsufficientEnv "medium" 3 2 3 1300 rfl
      (by decide)).2 (by decide) (by decide)⟩

/-- Claim C8 (counterexample): a round with a single failing query
records nothing in the session state — in particular no failed
SearchResult record is stored — although the query was processed. -/
theorem c8_search_failure_counterexample :
    (failingGateway "q1").success = false
    ∧ (executeSearchStep failingGateway initialSearchState
        ["q1"]).state.search_results = []
    ∧ (executeSearchStep failingGateway initialSearchState
        ["q1"]).processed = 1 := by
  exact ⟨rfl, rfl, rfl⟩

/-- Claim C8 (amended): a failing query is skipped without being
recorded in the session state — no failed SearchResult is stored — while
the remaining queries of the round still execute; only successful
records are ever stored, so failed searches cannot appear in the end
result; and when every search of a fresh session fails,
generate_final_answer still runs and returns the no-information message
instead of crashing. -/
theorem c8_search_failure_amended (gw : SearchGateway) (s : SearchState)
    (queries : List String) (uq : String) (synth : SynthesisCall) :
    (executeSearchStep gw s queries).processed = queries.length
    ∧ (executeSearchStep gw s queries).state.search_results
        = s.search_results
          ++ ((queries.filter fun q => (gw q).success).map
              (fun q => toSearchResultRec q (gw q)))
    ∧ ((∀ q ∈ queries, (gw q).success = false) →
        generateFinalAnswerStep uq
          (executeSearchStep gw initialSearchState queries).state.search_results
          synth = noInfoAnswer uq) := by
  refine ⟨?_, execSearch_foldl_results gw queries _, ?_⟩
  · have h := execSearch_foldl_processed gw queries
      { state := s, stepResults := [], processed := 0 }
    simpa [executeSearchStep] using h
  · intro hfail
    have h := execSearch_foldl_results gw queries
      { state := initialSearchState, stepResults := [], processed := 0 }
    have hempty : (queries.filter fun q => (gw q).success) = [] := by
      rw [List.filter_eq_nil_iff]
      intro q hq
      simp [hfail q hq]
    rw [show executeSearchStep gw initialSearchState queries
          = queries.foldl (execSearchOne gw)
              { state := initialSearchState, stepResults := [], processed := 0 }
        from rfl, h, hempty]
    rfl

/-- Witness for the amended C8 at a two-query round where every search
fails. -/
theorem c8_search_failure_amended_witness :
    (executeSearchStep failingGateway initialSearchState
        ["q1", "q2"]).processed = 2
    ∧ (executeSearchStep failingGateway initialSearchState
        ["q1", "q2"]).state.search_results
        = initialSearchState.search_results
          ++ ((["q1", "q2"].filter fun q => (failingGateway q).success).map
              (fun q => toSearchResultRec q (failingGateway q)))
    ∧ generateFinalAnswerStep "topic"
        (executeSearchStep failingGateway initialSearchState
          ["q1", "q2"]).state.search_results
        SynthesisCall.noClient = noInfoAnswer "topic" := by
  have h := c8_search_failure_amended failingGateway initialSearchState
    ["q1", "q2"] "topic" .noClient
  exact ⟨h.1, h.2.1, h.2.2 (by decide)⟩

/-- Claim C9 (confirmed): with at least one successful search result
carrying content, a failing synthesis call makes generate_final_answer
return the deterministic fallback — the evidence summary blocks joined
by horizontal rules inside the fixed report template — so a final answer
is always produced and the synthesis failure never propagates (the step
is a total function of the call outcome). -/
theorem c9_synthesis_fallback (uq msg : String) (rs : List SearchResultRec)
    (h : ((rs.filter fun r => r.success).filter
        fun r => r.content != "") ≠ []) :
    generateFinalAnswerStep uq rs (.raised msg)
      = fallbackAnswerOnError uq
          (((rs.filter fun r => r.success).filter
              fun r => r.content != "").map summaryOf) := by
  have h1 : (rs.filter fun r => r.success) ≠ [] := by
    intro hh
    exact h (by rw [hh]; rfl)
  unfold generateFinalAnswerStep
  rw [if_neg (by simpa [List.isEmpty_iff] using h1)]
  have h2 : (((rs.filter fun r => r.success).filter
      fun r => r.content != "").map summaryOf) ≠ [] := by
    simpa [List.map_eq_nil_iff] using h
  rw [if_neg (by simpa [List.isEmpty_iff] using h2)]

/-- Witness for C9 at one successful result with content. -/
theorem c9_synthesis_fallback_witness :
    generateFinalAnswerStep "topic" [sampleResult] (.raised "boom")
      = fallbackAnswerOnError "topic"
          ((([sampleResult].filter fun r => r.success).filter
              fun r => r.content != "").map summaryOf) :=
  c9_synthesis_fallback "topic" "boom" [sampleResult] (by decide)

/-- Claim C10 (confirmed): starting from a fresh session, after any
sequence of add_search_queries and add_search_result calls the query
history holds each query at most once and never an empty query, while a
SearchResult record is appended for every add_search_result call. -/
theorem c10_history_nodup (ops : List HistoryOp) :
    (applyHistoryOps initialSearchState ops).search_history.Nodup
    ∧ "" ∉ (applyHistoryOps initialSearchState ops).search_history
    ∧ (applyHistoryOps initialSearchState ops).search_results.length
        = countResultOps ops := by
  have h := applyHistoryOps_inv ops initialSearchState
    ⟨List.nodup_nil, by simp [initialSearchState]⟩
  exact ⟨h.1.1, h.1.2, by simpa [initialSearchState] using h.2⟩
